import Mathlib

/-!
Verification of the core data / persistence / launch contract of the
Termina launcher (`sshconnect-gui.py`).

The program stores two record lists (SSH hosts and terminal profiles) in a
JSON config file, builds `ssh` argument vectors and git environment
mappings from them, and can write a persistent git identity into a
repository.  Python values read from the config file are dynamically
typed, so the embedding keeps every record field as a JSON value and
models the relevant Python semantics (dict.get, truthiness, str(),
iteration, shlex.quote, int()) explicitly.  Filesystem and subprocess
effects are modelled as explicit state (`RepoState`, `ConfigFile`) with
boolean parameters standing for the success of each external call.
-/

namespace Termina

/-- JSON values as produced by Python's `json` module (numbers restricted
to integers, which is all the config schema uses). An object keeps its
entries in insertion order, as Python dicts do. -/
inductive Json where
  | null
  | bool (b : Bool)
  | num (n : Int)
  | str (s : String)
  | arr (elems : List Json)
  | obj (entries : List (String × Json))

mutual

/-- Python `repr` of a JSON-shaped value (string escaping inside `repr` of
a `str` is not reproduced; no claim evaluates it). -/
def Json.pyRepr : Json → String
  | .null => "None"
  | .bool b => if b then "True" else "False"
  | .num n => toString n
  | .str s => "'" ++ s ++ "'"
  | .arr l => "[" ++ Json.pyReprElems l ++ "]"
  | .obj kvs => "\x7b" ++ Json.pyReprEntries kvs ++ "\x7d"

/-- Comma-separated `repr` of list elements. -/
def Json.pyReprElems : List Json → String
  | [] => ""
  | [j] => Json.pyRepr j
  | j :: rest => Json.pyRepr j ++ ", " ++ Json.pyReprElems rest

/-- Comma-separated `repr` of dict entries. -/
def Json.pyReprEntries : List (String × Json) → String
  | [] => ""
  | [(k, v)] => "'" ++ k ++ "': " ++ Json.pyRepr v
  | (k, v) :: rest => "'" ++ k ++ "': " ++ Json.pyRepr v ++ ", " ++ Json.pyReprEntries rest

end

/-- Python `str()` of a value, as used by f-strings: a string stands for
itself, anything else renders via `repr`. -/
def Json.pyStr : Json → String
  | .str s => s
  | j => Json.pyRepr j

/-- Python truthiness (`if value:`). -/
def Json.truthy : Json → Bool
  | .null => false
  | .bool b => b
  | .num n => n != 0
  | .str s => s != ""
  | .arr l => !l.isEmpty
  | .obj kvs => !kvs.isEmpty

/-- First value bound to `key` in an ordered association list (Python dict
lookup; dicts built by `json.load` have distinct keys). -/
def lookupKV : List (String × Json) → String → Option Json
  | [], _ => none
  | (k, v) :: rest, key => if k = key then some v else lookupKV rest key

/-- Python `value.get(key, default)`: succeeds on a dict, raises
`AttributeError` (modelled as `Except.error`) on anything else. -/
def Json.getD : Json → String → Json → Except Unit Json
  | .obj kvs, key, dflt => .ok ((lookupKV kvs key).getD dflt)
  | _, _, _ => .error ()

/-- Python iteration (`for x in value`): lists yield their elements,
strings their characters, dicts their keys; other values raise
`TypeError` (modelled as `Except.error`). -/
def Json.pyIter : Json → Except Unit (List Json)
  | .arr l => .ok l
  | .str s => .ok (s.data.map fun c => .str c.toString)
  | .obj kvs => .ok (kvs.map fun kv => .str kv.1)
  | _ => .error ()

/-- Python `value != 22` for the stored port against the int literal 22:
false only when the value is the number 22 (floats are outside the
embedding). -/
def pyNeq22 : Json → Bool
  | .num n => n != 22
  | _ => true

/-- Python `str.strip()` on the character list: drop whitespace from both
ends. -/
def stripChars (l : List Char) : List Char :=
  ((l.dropWhile Char.isWhitespace).reverse.dropWhile Char.isWhitespace).reverse

/-- Decimal digit-string value, `none` unless nonempty and all digits. -/
def digitsVal (l : List Char) : Option Nat :=
  if l ≠ [] ∧ l.all Char.isDigit then
    some (l.foldl (fun acc c => acc * 10 + (c.toNat - 48)) 0)
  else none

/-- Python `int(s)` for decimal literals: optional surrounding whitespace,
optional sign, then digits; anything else raises `ValueError` (`none`). -/
def pyInt? (s : String) : Option Int :=
  match stripChars s.data with
  | '-' :: rest => (digitsVal rest).map (fun n => -(n : Int))
  | '+' :: rest => (digitsVal rest).map (fun n => (n : Int))
  | l => (digitsVal l).map (fun n => (n : Int))

/-- Characters `shlex.quote` leaves unquoted: ASCII word characters and
the ten punctuation characters listed below, per CPython's `_find_unsafe`
with `re.ASCII`. -/
def shlexSafeChar (c : Char) : Bool :=
  c.isAlpha || c.isDigit || ['_', '@', '%', '+', '=', ':', ',', '.', '/', '-'].contains c

/-- The character rewrite of `s.replace("'", "'\"'\"'")` used by
`shlex.quote`. -/
def quoteEscape : List Char → List Char
  | [] => []
  | c :: rest =>
    if c = '\'' then '\'' :: '"' :: '\'' :: '"' :: '\'' :: quoteEscape rest
    else c :: quoteEscape rest

/-- Python `shlex.quote`: empty becomes `''`, fully safe strings pass
through, anything else is wrapped in single quotes with embedded single
quotes escaped. -/
def shlex_quote (s : String) : String :=
  if s = "" then "''"
  else if s.data.all shlexSafeChar then s
  else "'" ++ String.mk (quoteEscape s.data) ++ "'"

/-- Character-list substring test: does `needle` occur contiguously in
`hay`? -/
def charsContain (hay needle : List Char) : Bool :=
  match hay with
  | [] => needle.isEmpty
  | _ :: t => needle.isPrefixOf hay || charsContain t needle

/-- Python `needle in hay` for strings: substring containment. -/
def strContains (hay needle : String) : Bool :=
  charsContain hay.data needle.data

/-- Last path component, modelling `pathlib.Path(dir).name` for ordinary
paths (used only inside a success message). -/
def path_name (dir : String) : String :=
  String.mk (((dir.data.splitOn '/').filter (fun l => l ≠ [])).getLast?.getD [])

/-- An `SSHHost` object. Fields keep the dynamic (JSON) values Python
stores: `from_dict` copies whatever the config file holds without
validating types. -/
structure SSHHost where
  name : Json
  ip : Json
  username : Json
  port : Json
  certificate : Json
  links : Json

/-- `SSHHost.to_dict`: the dict written to the config file, keys in the
source's insertion order. -/
def SSHHost.to_dict (h : SSHHost) : Json :=
  .obj [("name", h.name), ("ip", h.ip), ("username", h.username),
        ("port", h.port), ("certificate", h.certificate), ("links", h.links)]

/-- `SSHHost.from_dict`: each field is `data.get(key, default)` with
defaults `""`, `""`, `""`, `22`, `""`, `[]`; fails (AttributeError) only
when `data` is not a dict. No validation is performed on present
values. -/
def SSHHost.from_dict (data : Json) : Except Unit SSHHost := do
  let name ← data.getD "name" (.str "")
  let ip ← data.getD "ip" (.str "")
  let username ← data.getD "username" (.str "")
  let port ← data.getD "port" (.num 22)
  let certificate ← data.getD "certificate" (.str "")
  let links ← data.getD "links" (.arr [])
  pure ⟨name, ip, username, port, certificate, links⟩

/-- `SSHHost.get_ssh_args`: `["ssh"]`, then `["-i", certificate]` when the
certificate is truthy, then `["-p", str(port)]` when `port != 22`, then
`f"{username}@{ip}"` when the username is truthy, else the raw `ip`. -/
def SSHHost.get_ssh_args (h : SSHHost) : List Json :=
  let args := [Json.str "ssh"]
  let args := args ++ (if h.certificate.truthy then [Json.str "-i", h.certificate] else [])
  let args := args ++ (if pyNeq22 h.port then [Json.str "-p", Json.str h.port.pyStr] else [])
  let target := if h.username.truthy then Json.str (h.username.pyStr ++ "@" ++ h.ip.pyStr) else h.ip
  args ++ [target]

/-- A `TerminalProfile` object, fields dynamic as stored. -/
structure TerminalProfile where
  name : Json
  git_username : Json
  git_email : Json
  ssh_key_path : Json
  working_dir : Json

/-- `TerminalProfile.to_dict`. -/
def TerminalProfile.to_dict (p : TerminalProfile) : Json :=
  .obj [("name", p.name), ("git_username", p.git_username), ("git_email", p.git_email),
        ("ssh_key_path", p.ssh_key_path), ("working_dir", p.working_dir)]

/-- `TerminalProfile.from_dict`: every field defaults to `""`. -/
def TerminalProfile.from_dict (data : Json) : Except Unit TerminalProfile := do
  let name ← data.getD "name" (.str "")
  let git_username ← data.getD "git_username" (.str "")
  let git_email ← data.getD "git_email" (.str "")
  let ssh_key_path ← data.getD "ssh_key_path" (.str "")
  let working_dir ← data.getD "working_dir" (.str "")
  pure ⟨name, git_username, git_email, ssh_key_path, working_dir⟩

/-- `TerminalProfile.get_environment`: the four `GIT_*` identity variables
always, plus `GIT_SSH_COMMAND` when `ssh_key_path` is truthy. `none`
models the `TypeError` `shlex.quote` raises on a truthy non-string. -/
def TerminalProfile.get_environment (p : TerminalProfile) : Option (List (String × Json)) :=
  let env : List (String × Json) :=
    [("GIT_AUTHOR_NAME", p.git_username),
     ("GIT_COMMITTER_NAME", p.git_username),
     ("GIT_AUTHOR_EMAIL", p.git_email),
     ("GIT_COMMITTER_EMAIL", p.git_email)]
  if p.ssh_key_path.truthy then
    match p.ssh_key_path with
    | .str s => some (env ++ [("GIT_SSH_COMMAND",
        .str ("ssh -i " ++ shlex_quote s ++ " -o IdentitiesOnly=yes"))])
    | _ => none
  else some env

/-- The `.gitconfig.local` content written by `apply_persistent_identity`. -/
def config_content (p : TerminalProfile) : String :=
  "[user]\n    name = " ++ p.git_username.pyStr ++ "\n    email = " ++ p.git_email.pyStr ++ "\n"

/-- The observable state of the target repository directory: whether
`.git` exists, the `.gitconfig.local` content if present, and the value
of the single-valued local `include.path` git config key (`git config
--local include.path v` replaces any previous value). -/
structure RepoState where
  gitDirExists : Bool
  gitconfigLocal : Option String
  includePath : Option String

/-- Result of one `apply_persistent_identity` call: the repository state
after it, the returned `(success, message)` pair, and whether any `git`
subprocess launch was attempted. -/
structure ApplyOutcome where
  state : RepoState
  success : Bool
  message : String
  gitInvoked : Bool

/-- `TerminalProfile.apply_persistent_identity` on repository state `st`.
`gitAvailable`, `writeOk`, `setOk` stand for: the `git` executable
exists, `config_file.write_text` does not raise `OSError`, and the
`include.path` set subprocess exits zero. The `--get` read never raises
when git exists (`capture_output` without `check`); an unset key reads as
empty stdout, a set key as the value plus a newline. Exception detail
text (`{e}`) is omitted from the two exception-derived messages. -/
def TerminalProfile.apply_persistent_identity (p : TerminalProfile) (project_dir : String)
    (st : RepoState) (gitAvailable writeOk setOk : Bool) : ApplyOutcome :=
  if !st.gitDirExists then
    ⟨st, false, "Not a git repository (no .git directory found)", false⟩
  else if !writeOk then
    ⟨st, false, "Failed to create .gitconfig.local", false⟩
  else
    let st1 : RepoState := { st with gitconfigLocal := some (config_content p) }
    let okMsg := "Identity set for " ++ path_name project_dir ++ ": "
      ++ p.git_username.pyStr ++ " <" ++ p.git_email.pyStr ++ ">"
    if !gitAvailable then
      ⟨st1, false, "git command not found", true⟩
    else
      let stdout := match st1.includePath with
        | some v => v ++ "\n"
        | none => ""
      if strContains stdout ".gitconfig.local" then
        ⟨st1, true, okMsg, true⟩
      else if setOk then
        ⟨{ st1 with includePath := some "../.gitconfig.local" }, true, okMsg, true⟩
      else
        ⟨st1, false, "Failed to configure git include path", true⟩

/-- Port handling of `HostDialog.get_host`: `int(text)` clamped to 22 when
parsing fails or the value is outside 1..65535. -/
def dialog_port (portText : String) : Int :=
  match pyInt? portText with
  | some port => if port < 1 ∨ port > 65535 then 22 else port
  | none => 22

/-- `HostDialog.get_host` from the dialog's entry texts and link rows:
strips every text field, clamps the port, keeps only link rows where both
stripped fields are nonempty, and returns a host only when the stripped
name and ip are both nonempty. -/
def get_host (nameText ipText usernameText portText certText : String)
    (linksRows : List (String × String)) : Option SSHHost :=
  let name := String.mk (stripChars nameText.data)
  let ip := String.mk (stripChars ipText.data)
  let username := String.mk (stripChars usernameText.data)
  let certificate := String.mk (stripChars certText.data)
  let port := dialog_port portText
  let links := linksRows.filterMap fun row =>
    let linkName := String.mk (stripChars row.1.data)
    let linkUrl := String.mk (stripChars row.2.data)
    if linkName ≠ "" ∧ linkUrl ≠ "" then
      some (Json.obj [("name", .str linkName), ("url", .str linkUrl)])
    else none
  if name ≠ "" ∧ ip ≠ "" then
    some ⟨.str name, .str ip, .str username, .num port, .str certificate, .arr links⟩
  else none

/-- The Python list comprehension `[SSHHost.from_dict(h) for h in items]`:
the first exception aborts the whole comprehension. -/
def mapHosts : List Json → Except Unit (List SSHHost)
  | [] => .ok []
  | j :: rest => do
    let h ← SSHHost.from_dict j
    let t ← mapHosts rest
    pure (h :: t)

/-- The comprehension `[TerminalProfile.from_dict(p) for p in items]`. -/
def mapProfiles : List Json → Except Unit (List TerminalProfile)
  | [] => .ok []
  | j :: rest => do
    let p ← TerminalProfile.from_dict j
    let t ← mapProfiles rest
    pure (p :: t)

/-- The versioned document `save_config` serializes. -/
def save_doc (hosts : List SSHHost) (profiles : List TerminalProfile) : Json :=
  .obj [("version", .num 2),
        ("ssh_hosts", .arr (hosts.map SSHHost.to_dict)),
        ("terminal_profiles", .arr (profiles.map TerminalProfile.to_dict))]

/-- The config file as the program observes it: its JSON content (if any)
and its permission bits (if ever set by the program). -/
structure ConfigFile where
  content : Option Json
  mode : Option Nat

/-- `stat.S_IRUSR` (octal 400). -/
def S_IRUSR : Nat := 0x100

/-- `stat.S_IWUSR` (octal 200). -/
def S_IWUSR : Nat := 0x80

/-- Result of one `save_config` call. -/
structure SaveOutcome where
  file : ConfigFile
  errorReported : Bool

/-- `SSHConnectWindow.save_config`: writes the full versioned document and
then `os.chmod(file, S_IRUSR | S_IWUSR)`. `writeOk` / `chmodOk` stand for
the two calls not raising; any exception is caught and reported via an
error dialog without propagating. -/
def save_config (hosts : List SSHHost) (profiles : List TerminalProfile)
    (file : ConfigFile) (writeOk chmodOk : Bool) : SaveOutcome :=
  if writeOk then
    let written : ConfigFile := { file with content := some (save_doc hosts profiles) }
    if chmodOk then
      ⟨{ written with mode := some (S_IRUSR ||| S_IWUSR) }, false⟩
    else
      ⟨written, true⟩
  else
    ⟨file, true⟩

/-- What reading `~/.sshconnect` produced: the file is absent, `json.load`
raised `JSONDecodeError`, some other exception occurred while opening or
reading, or a parsed JSON document. -/
inductive ReadResult where
  | absent
  | malformed
  | failed
  | content (data : Json)

/-- The error kinds `load_config` reports (asynchronously, via
`GLib.idle_add` of an error dialog). -/
inductive ConfigError where
  | parseError
  | loadError

/-- Result of `load_config`: the two record lists left in memory, the
document `save_config` was asked to write if the legacy migration ran,
and the error reported to the user, if any. -/
structure LoadOutcome where
  hosts : List SSHHost
  terminal_profiles : List TerminalProfile
  written : Option Json
  errorReported : Option ConfigError

/-- The non-legacy path of `load_config`: `data.get("ssh_hosts", [])` and
`data.get("terminal_profiles", [])`, each iterated through `from_dict`. -/
def loadNewFormat (data : Json) : Except Unit (List SSHHost × List TerminalProfile) := do
  let hostsVal ← data.getD "ssh_hosts" (.arr [])
  let hostItems ← hostsVal.pyIter
  let hosts ← mapHosts hostItems
  let profilesVal ← data.getD "terminal_profiles" (.arr [])
  let profileItems ← profilesVal.pyIter
  let profiles ← mapProfiles profileItems
  pure (hosts, profiles)

/-- `SSHConnectWindow.load_config`. An absent file leaves the empty lists
from `__init__` untouched. A top-level JSON array is the legacy format:
its hosts are loaded, profiles set empty, and `save_config` is invoked at
once to rewrite the file in the versioned shape. Any exception in either
path is caught: both lists are reset to empty and an error is reported;
nothing propagates past `load_config` and the process keeps running. -/
def load_config : ReadResult → LoadOutcome
  | .absent => ⟨[], [], none, none⟩
  | .malformed => ⟨[], [], none, some .parseError⟩
  | .failed => ⟨[], [], none, some .loadError⟩
  | .content data =>
    match data with
    | .arr hostsJson =>
      match mapHosts hostsJson with
      | .ok hosts => ⟨hosts, [], some (save_doc hosts []), none⟩
      | .error _ => ⟨[], [], none, some .loadError⟩
    | _ =>
      match loadNewFormat data with
      | .ok (hosts, profiles) => ⟨hosts, profiles, none, none⟩
      | .error _ => ⟨[], [], none, some .loadError⟩


theorem ok_bind {α β : Type} (a : α) (f : α → Except Unit β) :
    (Except.ok a >>= f) = f a := rfl

theorem from_dict_to_dict (h : SSHHost) : SSHHost.from_dict h.to_dict = .ok h := rfl

theorem profile_from_dict_to_dict (p : TerminalProfile) :
    TerminalProfile.from_dict p.to_dict = .ok p := rfl

theorem from_dict_obj (kvs : List (String × Json)) :
    SSHHost.from_dict (.obj kvs) =
      .ok ⟨(lookupKV kvs "name").getD (.str ""), (lookupKV kvs "ip").getD (.str ""),
           (lookupKV kvs "username").getD (.str ""), (lookupKV kvs "port").getD (.num 22),
           (lookupKV kvs "certificate").getD (.str ""), (lookupKV kvs "links").getD (.arr [])⟩ := rfl

theorem mapHosts_to_dict (l : List SSHHost) :
    mapHosts (l.map SSHHost.to_dict) = .ok l := by
  induction l with
  | nil => rfl
  | cons h t ih => simp [mapHosts, from_dict_to_dict, ih, ok_bind]

theorem mapProfiles_to_dict (l : List TerminalProfile) :
    mapProfiles (l.map TerminalProfile.to_dict) = .ok l := by
  induction l with
  | nil => rfl
  | cons p t ih => simp [mapProfiles, profile_from_dict_to_dict, ih, ok_bind]

theorem loadNewFormat_save_doc (hosts : List SSHHost) (profiles : List TerminalProfile) :
    loadNewFormat (save_doc hosts profiles) = .ok (hosts, profiles) := by
  have step : loadNewFormat (save_doc hosts profiles) =
      (mapHosts (hosts.map SSHHost.to_dict) >>= fun hs =>
        mapProfiles (profiles.map TerminalProfile.to_dict) >>= fun ps =>
          pure (hs, ps)) := rfl
  rw [step, mapHosts_to_dict, ok_bind, mapProfiles_to_dict, ok_bind]
  rfl

/-- C1: for every host record, `get_ssh_args` produces `["ssh"]`, then
`["-i", certificate]` exactly when the certificate is non-empty, then
`["-p", port]` exactly when the port differs from 22, then `username@ip`
when the username is non-empty, else `ip`; in particular
`{ip:"h", username:"", port:22, certificate:""}` yields exactly
`["ssh","h"]` and `{ip:"h", username:"u", port:2222, certificate:"/k"}`
yields `["ssh","-i","/k","-p","2222","u@h"]`. -/
theorem get_ssh_args_spec (nm ip un ct : String) (pt : Int) (lk : List Json) :
    SSHHost.get_ssh_args ⟨.str nm, .str ip, .str un, .num pt, .str ct, .arr lk⟩ =
      [Json.str "ssh"]
        ++ (if ct ≠ "" then [Json.str "-i", Json.str ct] else [])
        ++ (if pt ≠ 22 then [Json.str "-p", Json.str (toString pt)] else [])
        ++ [if un ≠ "" then Json.str (un ++ "@" ++ ip) else Json.str ip]
    ∧ SSHHost.get_ssh_args ⟨.str "n", .str "h", .str "", .num 22, .str "", .arr []⟩ =
        [Json.str "ssh", Json.str "h"]
    ∧ SSHHost.get_ssh_args ⟨.str "n", .str "h", .str "u", .num 2222, .str "/k", .arr []⟩ =
        [Json.str "ssh", Json.str "-i", Json.str "/k", Json.str "-p", Json.str "2222",
         Json.str "u@h"] := by
  refine ⟨?_, rfl, rfl⟩
  by_cases hc : ct = "" <;> by_cases hp : pt = 22 <;> by_cases hu : un = "" <;>
    simp [SSHHost.get_ssh_args, Json.truthy, pyNeq22, Json.pyStr, Json.pyRepr, hc, hp, hu]

/-- C2: saving any pair of host and profile record lists and loading the
resulting document yields the same record lists back, field by field
(links included, in order), with no migration rewrite and no error. -/
theorem save_then_load_roundtrip (hosts : List SSHHost) (profiles : List TerminalProfile) :
    load_config (.content (save_doc hosts profiles)) =
      ⟨hosts, profiles, none, none⟩ := by
  have step : load_config (.content (save_doc hosts profiles)) =
      (match loadNewFormat (save_doc hosts profiles) with
        | .ok (hs, ps) => LoadOutcome.mk hs ps none none
        | .error _ => ⟨[], [], none, some .loadError⟩) := rfl
  rw [step, loadNewFormat_save_doc]

/-- C3: a config file whose top level is a JSON array of objects (the
legacy shape) loads as the host list given by `from_dict` on each
element, with an empty profile list, and immediately rewrites the file as
the versioned `save_doc` document; in particular the array
`[{"name":"a","ip":"1.2.3.4"}]` yields exactly one host with that name
and ip. -/
theorem load_legacy_array_migrates (l : List Json)
    (hobj : ∀ j ∈ l, ∃ kvs, j = Json.obj kvs) :
    ∃ hs, mapHosts l = .ok hs ∧
      load_config (.content (.arr l)) = ⟨hs, [], some (save_doc hs []), none⟩ ∧
      load_config (.content (.arr [.obj [("name", .str "a"), ("ip", .str "1.2.3.4")]])) =
        ⟨[⟨.str "a", .str "1.2.3.4", .str "", .num 22, .str "", .arr []⟩], [],
         some (save_doc [⟨.str "a", .str "1.2.3.4", .str "", .num 22, .str "", .arr []⟩] []),
         none⟩ := by
  have hmap : ∃ hs, mapHosts l = .ok hs := by
    induction l with
    | nil => exact ⟨[], rfl⟩
    | cons j t ih =>
      obtain ⟨kvs, rfl⟩ := hobj j (List.mem_cons_self j t)
      obtain ⟨hs, hhs⟩ := ih (fun x hx => hobj x (List.mem_cons_of_mem _ hx))
      refine ⟨⟨(lookupKV kvs "name").getD (.str ""), (lookupKV kvs "ip").getD (.str ""),
               (lookupKV kvs "username").getD (.str ""), (lookupKV kvs "port").getD (.num 22),
               (lookupKV kvs "certificate").getD (.str ""),
               (lookupKV kvs "links").getD (.arr [])⟩ :: hs, ?_⟩
      simp [mapHosts, from_dict_obj, ok_bind, hhs]
  obtain ⟨hs, hhs⟩ := hmap
  refine ⟨hs, hhs, ?_, rfl⟩
  simp [load_config, hhs]

/-- C3 witness: the concrete legacy array from the claim. -/
theorem load_legacy_array_migrates_witness :
    load_config (.content (.arr [.obj [("name", Json.str "a"), ("ip", Json.str "1.2.3.4")]])) =
      ⟨[⟨.str "a", .str "1.2.3.4", .str "", .num 22, .str "", .arr []⟩], [],
       some (save_doc [⟨.str "a", .str "1.2.3.4", .str "", .num 22, .str "", .arr []⟩] []),
       none⟩ := by
  obtain ⟨hs, -, -, hc⟩ :=
    load_legacy_array_migrates [.obj [("name", .str "a"), ("ip", .str "1.2.3.4")]]
      (by intro j hj; rw [List.mem_singleton] at hj; exact ⟨_, hj⟩)
  exact hc

/-- C4 counterexample: a stored host object with port 0 loads with port 0,
not 22 — `from_dict` keeps a present port value unchanged. -/
theorem load_port_zero_kept_cex :
    SSHHost.from_dict (.obj [("name", Json.str "a"), ("ip", Json.str "h"), ("port", Json.num 0)]) =
      .ok ⟨.str "a", .str "h", .str "", .num 0, .str "", .arr []⟩
    ∧ (SSHHost.mk (.str "a") (.str "h") (.str "") (.num 0) (.str "") (.arr [])).port ≠
        Json.num 22 := ⟨rfl, by simp⟩

/-- C4 amended: loading never rejects a record for its port; `from_dict`
keeps a present port value exactly as stored and uses 22 only when the
`port` key is absent. The fall-back of malformed or out-of-range input to
22 happens only at dialog input time (`get_host`), where `0`, `70000` and
unparseable text all become 22. -/
theorem from_dict_port_behavior (kvs : List (String × Json)) :
    (∃ h, SSHHost.from_dict (.obj kvs) = .ok h ∧
        h.port = (lookupKV kvs "port").getD (.num 22))
    ∧ dialog_port "0" = 22 ∧ dialog_port "70000" = 22 ∧ dialog_port "abc" = 22
    ∧ dialog_port "2222" = 2222 :=
  ⟨⟨_, from_dict_obj kvs, rfl⟩, rfl, rfl, rfl, rfl⟩

/-- C5 counterexample: loading a legacy file whose host object has no
`name` key yields a host whose name is the empty string, and that very
host is immediately persisted by the migration rewrite — a persisted
record with an empty name. -/
theorem load_empty_name_persisted_cex :
    load_config (.content (.arr [.obj [("ip", Json.str "h")]])) =
      ⟨[⟨.str "", .str "h", .str "", .num 22, .str "", .arr []⟩], [],
       some (save_doc [⟨.str "", .str "h", .str "", .num 22, .str "", .arr []⟩] []), none⟩
    ∧ (SSHHost.mk (.str "") (.str "h") (.str "") (.num 22) (.str "") (.arr [])).name =
        Json.str "" := ⟨rfl, rfl⟩

/-- C5 amended: the non-empty name/ip invariant is enforced only at dialog
entry: `get_host` returns a host exactly when the stripped name and ip are
non-empty, so every record created in-app has truthy name and ip; records
read from an externally written config file are not checked and may be
persisted with empty fields. -/
theorem get_host_name_ip_nonempty (nt it ut pt ct : String)
    (rows : List (String × String)) (h : SSHHost)
    (hh : get_host nt it ut pt ct rows = some h) :
    h.name.truthy = true ∧ h.ip.truthy = true := by
  simp only [get_host] at hh
  split at hh
  case isTrue hc =>
    obtain ⟨rfl⟩ : _ = h := Option.some.inj hh
    exact ⟨bne_iff_ne.mpr hc.1, bne_iff_ne.mpr hc.2⟩
  case isFalse hc => exact absurd hh (by simp)

/-- C5 witness: a concrete dialog submission. -/
theorem get_host_name_ip_nonempty_witness :
    (Json.str "a").truthy = true ∧ (Json.str "h").truthy = true :=
  get_host_name_ip_nonempty "a" "h" "" "22" "" []
    ⟨.str "a", .str "h", .str "", .num 22, .str "", .arr []⟩ rfl

/-- C6: on malformed JSON, on any other read failure, and on a top-level
value that is neither array nor object, `load_config` leaves both record
lists empty and reports the corresponding error; the handler catches the
exception inside `load_config`, so nothing propagates and the process
keeps running. -/
theorem load_failure_empty_and_reported :
    load_config .malformed = ⟨[], [], none, some .parseError⟩
    ∧ load_config .failed = ⟨[], [], none, some .loadError⟩
    ∧ load_config (.content (.num 5)) = ⟨[], [], none, some .loadError⟩ := ⟨rfl, rfl, rfl⟩

/-- C7: `get_environment` maps GIT_AUTHOR_NAME and GIT_COMMITTER_NAME to
git_username, GIT_AUTHOR_EMAIL and GIT_COMMITTER_EMAIL to git_email, and
contains GIT_SSH_COMMAND exactly when ssh_key_path is non-empty, with
value `ssh -i <quoted path> -o IdentitiesOnly=yes`; a path containing a
space is wrapped in single quotes by `shlex_quote`. -/
theorem get_environment_spec (n u e k w : String) :
    ∃ env, TerminalProfile.get_environment ⟨.str n, .str u, .str e, .str k, .str w⟩ = some env
      ∧ lookupKV env "GIT_AUTHOR_NAME" = some (.str u)
      ∧ lookupKV env "GIT_COMMITTER_NAME" = some (.str u)
      ∧ lookupKV env "GIT_AUTHOR_EMAIL" = some (.str e)
      ∧ lookupKV env "GIT_COMMITTER_EMAIL" = some (.str e)
      ∧ lookupKV env "GIT_SSH_COMMAND" =
          (if k = "" then none
           else some (.str ("ssh -i " ++ shlex_quote k ++ " -o IdentitiesOnly=yes")))
      ∧ (' ' ∈ k.data → shlex_quote k = "'" ++ String.mk (quoteEscape k.data) ++ "'") := by
  by_cases hk : k = ""
  · subst hk
    refine ⟨_, rfl, rfl, rfl, rfl, rfl, rfl, ?_⟩
    intro hsp
    exact absurd hsp (by simp)
  · have hkb : (k != "") = true := bne_iff_ne.mpr hk
    refine ⟨[("GIT_AUTHOR_NAME", .str u), ("GIT_COMMITTER_NAME", .str u),
             ("GIT_AUTHOR_EMAIL", .str e), ("GIT_COMMITTER_EMAIL", .str e),
             ("GIT_SSH_COMMAND", .str ("ssh -i " ++ shlex_quote k ++ " -o IdentitiesOnly=yes"))],
            ?_, rfl, rfl, rfl, rfl, ?_, ?_⟩
    · simp [TerminalProfile.get_environment, Json.truthy, hkb]
    · rw [if_neg hk]
      rfl
    · intro hsp
      have hne : k ≠ "" := hk
      have hall : k.data.all shlexSafeChar = false := by
        cases hA : k.data.all shlexSafeChar
        · rfl
        · exact absurd (List.all_eq_true.mp hA ' ' hsp) (by decide)
      unfold shlex_quote
      rw [if_neg hne]
      simp [hall]

/-- C7 witness: a key path with an embedded space is quoted. -/
theorem get_environment_spec_witness :
    shlex_quote "/my key" = "'" ++ String.mk (quoteEscape "/my key".data) ++ "'" := by
  obtain ⟨env, -, -, -, -, -, -, hq⟩ := get_environment_spec "p" "gu" "ge" "/my key" ""
  exact hq (by decide)

theorem head_ne (s t : String) (a b : Char) (h1 : s.data.head? = some a)
    (h2 : t.data.head? = some b) (hab : a ≠ b) : s ≠ t := by
  intro he
  rw [he, h2] at h1
  exact hab (Option.some.inj h1).symm

theorem apply_message_ne (p : TerminalProfile) (dir : String) (st : RepoState)
    (gA wOk sOk : Bool) (hg : st.gitDirExists = true) :
    (p.apply_persistent_identity dir st gA wOk sOk).message ≠
      "Not a git repository (no .git directory found)" := by
  obtain ⟨g, cl, ip⟩ := st
  replace hg : g = true := hg
  subst hg
  cases wOk with
  | false => exact head_ne _ _ 'F' 'N' rfl rfl (by decide)
  | true =>
    cases gA with
    | false => exact head_ne _ _ 'g' 'N' rfl rfl (by decide)
    | true =>
      rcases ip with _ | v
      · cases sOk with
        | false => exact head_ne _ _ 'F' 'N' rfl rfl (by decide)
        | true => exact head_ne _ _ 'I' 'N' rfl rfl (by decide)
      · cases hc : strContains (v ++ "\n") ".gitconfig.local" with
        | true =>
          simp only [TerminalProfile.apply_persistent_identity, hc]
          exact head_ne _ _ 'I' 'N' rfl rfl (by decide)
        | false =>
          simp only [TerminalProfile.apply_persistent_identity, hc]
          cases sOk with
          | false => exact head_ne _ _ 'F' 'N' rfl rfl (by decide)
          | true => exact head_ne _ _ 'I' 'N' rfl rfl (by decide)

/-- C8: with `.git` present and the external calls succeeding, calling
`apply_persistent_identity` twice is idempotent: the second call leaves
the repository state unchanged, both calls succeed, `.gitconfig.local`
holds exactly the current profile's name and email, and the single
`include.path` value references `.gitconfig.local`. -/
theorem apply_persistent_identity_idempotent (p : TerminalProfile) (dir : String)
    (st : RepoState) (hg : st.gitDirExists = true) :
    ((p.apply_persistent_identity dir
        ((p.apply_persistent_identity dir st true true true).state) true true true).state =
      (p.apply_persistent_identity dir st true true true).state)
    ∧ (p.apply_persistent_identity dir st true true true).success = true
    ∧ (p.apply_persistent_identity dir
        ((p.apply_persistent_identity dir st true true true).state) true true true).success = true
    ∧ (p.apply_persistent_identity dir st true true true).state.gitconfigLocal =
        some (config_content p)
    ∧ ∃ v, (p.apply_persistent_identity dir st true true true).state.includePath = some v
        ∧ strContains (v ++ "\n") ".gitconfig.local" = true := by
  obtain ⟨g, cl, ip⟩ := st
  replace hg : g = true := hg
  subst hg
  cases ip with
  | none =>
    exact ⟨rfl, rfl, rfl, rfl, "../.gitconfig.local", rfl, rfl⟩
  | some v =>
    have hdot : strContains ("../.gitconfig.local" ++ "\n") ".gitconfig.local" = true := rfl
    cases hc : strContains (v ++ "\n") ".gitconfig.local" with
    | true =>
      refine ⟨?_, ?_, ?_, ?_, v, ?_, hc⟩ <;>
        simp [TerminalProfile.apply_persistent_identity, hc]
    | false =>
      refine ⟨?_, ?_, ?_, ?_, "../.gitconfig.local", ?_, rfl⟩ <;>
        simp [TerminalProfile.apply_persistent_identity, hc, hdot]

/-- C8 witness: a fresh repository. -/
theorem apply_persistent_identity_idempotent_witness :
    ∃ v, (TerminalProfile.apply_persistent_identity
        ⟨Json.str "p", Json.str "gu", Json.str "ge", Json.str "", Json.str ""⟩ "proj"
        ⟨true, none, none⟩ true true true).state.includePath = some v
      ∧ strContains (v ++ "\n") ".gitconfig.local" = true :=
  (apply_persistent_identity_idempotent
    ⟨.str "p", .str "gu", .str "ge", .str "", .str ""⟩ "proj" ⟨true, none, none⟩ rfl).2.2.2.2

/-- C9: `apply_persistent_identity` returns the NotAGitRepository failure
message exactly when `.git` is absent, and in that case it has no side
effects: the repository state is returned unchanged (no `.gitconfig.local`
written) and no git subprocess is attempted. -/
theorem apply_not_a_git_repository (p : TerminalProfile) (dir : String) (st : RepoState)
    (gA wOk sOk : Bool) :
    (((p.apply_persistent_identity dir st gA wOk sOk).message =
        "Not a git repository (no .git directory found)") ↔ st.gitDirExists = false)
    ∧ (st.gitDirExists = false →
        p.apply_persistent_identity dir st gA wOk sOk =
          ⟨st, false, "Not a git repository (no .git directory found)", false⟩) := by
  constructor
  · constructor
    · intro hmsg
      by_contra hne
      have hg : st.gitDirExists = true := by
        cases hG : st.gitDirExists
        · exact absurd hG hne
        · rfl
      exact apply_message_ne p dir st gA wOk sOk hg hmsg
    · intro hg
      simp [TerminalProfile.apply_persistent_identity, hg]
  · intro hg
    simp [TerminalProfile.apply_persistent_identity, hg]

/-- C9 witness: a directory without `.git`. -/
theorem apply_not_a_git_repository_witness :
    TerminalProfile.apply_persistent_identity
        ⟨Json.str "p", Json.str "gu", Json.str "ge", Json.str "", Json.str ""⟩ "proj"
        ⟨false, none, none⟩ true true true =
      ⟨⟨false, none, none⟩, false, "Not a git repository (no .git directory found)", false⟩ :=
  (apply_not_a_git_repository ⟨.str "p", .str "gu", .str "ge", .str "", .str ""⟩ "proj"
    ⟨false, none, none⟩ true true true).2 rfl

/-- C10: every successful save writes the full versioned document and sets
the file mode to `S_IRUSR | S_IWUSR` (octal 600): the other and group
permission octets are zero and the owner octet is read+write. -/
theorem save_config_versioned_and_owner_only (hosts : List SSHHost)
    (profiles : List TerminalProfile) (file : ConfigFile) :
    save_config hosts profiles file true true =
      ⟨⟨some (save_doc hosts profiles), some (S_IRUSR ||| S_IWUSR)⟩, false⟩
    ∧ (S_IRUSR ||| S_IWUSR) % 8 = 0
    ∧ ((S_IRUSR ||| S_IWUSR) / 8) % 8 = 0
    ∧ (S_IRUSR ||| S_IWUSR) / 64 = 6 :=
  ⟨rfl, by decide, by decide, by decide⟩

end Termina
